import Mathlib

/-!
Verification of the per-frame animation logic of `src/assets/js/main3d.js`
(the ShipVate landing-page 3D hero animation).  JavaScript numbers are
modelled as exact rationals (and as reals where the code calls
transcendental functions); vectors and quaternions follow the three.js
component formulas used by the source.
-/

/-- Truncation toward zero, as JavaScript float-to-int conversion and the
sign convention of the JS `%` operator use it. -/
def jsTrunc {R : Type} [LinearOrderedField R] [FloorRing R] (x : R) : ℤ :=
  if 0 ≤ x then ⌊x⌋ else -⌊-x⌋

/-- The JavaScript `%` operator on numbers: `a - b * trunc (a / b)`, the
remainder keeping the sign of the dividend. -/
def jsFmod {R : Type} [LinearOrderedField R] [FloorRing R] (a b : R) : R :=
  a - b * (jsTrunc (a / b) : R)

theorem jsTrunc_of_nonneg {R : Type} [LinearOrderedField R] [FloorRing R]
    (x : R) (hx : 0 ≤ x) : jsTrunc x = ⌊x⌋ := by
  simp [jsTrunc, hx]

theorem jsFmod_nonneg {R : Type} [LinearOrderedField R] [FloorRing R]
    (a b : R) (ha : 0 ≤ a) (hb : 0 < b) : 0 ≤ jsFmod a b := by
  have hno : 0 ≤ a / b := div_nonneg ha hb.le
  rw [jsFmod, jsTrunc_of_nonneg _ hno, sub_nonneg]
  calc b * (⌊a / b⌋ : R) ≤ b * (a / b) := by
        exact mul_le_mul_of_nonneg_left (Int.floor_le _) hb.le
    _ = a := by field_simp

theorem jsFmod_lt {R : Type} [LinearOrderedField R] [FloorRing R]
    (a b : R) (ha : 0 ≤ a) (hb : 0 < b) : jsFmod a b < b := by
  have hno : 0 ≤ a / b := div_nonneg ha hb.le
  rw [jsFmod, jsTrunc_of_nonneg _ hno, sub_lt_iff_lt_add]
  have h1 : a / b < (⌊a / b⌋ : R) + 1 := Int.lt_floor_add_one _
  calc a = b * (a / b) := by field_simp
    _ < b * ((⌊a / b⌋ : R) + 1) := by exact mul_lt_mul_of_pos_left h1 hb
    _ = b + b * (⌊a / b⌋ : R) := by ring

theorem jsFmod_add_self {R : Type} [LinearOrderedField R] [FloorRing R]
    (a b : R) (ha : 0 ≤ a) (hb : 0 < b) : jsFmod (a + b) b = jsFmod a b := by
  have hno : 0 ≤ a / b := div_nonneg ha hb.le
  have hno2 : 0 ≤ (a + b) / b := div_nonneg (by linarith) hb.le
  have hdiv : (a + b) / b = a / b + 1 := by field_simp
  rw [jsFmod, jsFmod, jsTrunc_of_nonneg _ hno, jsTrunc_of_nonneg _ hno2, hdiv,
    Int.floor_add_one]
  push_cast
  ring

/-- Rational 3D vector with the three.js component operations the animation
loop uses. -/
structure Vec3 where
  x : ℚ
  y : ℚ
  z : ℚ
deriving DecidableEq, Repr

def Vec3.add (a b : Vec3) : Vec3 := ⟨a.x + b.x, a.y + b.y, a.z + b.z⟩

def Vec3.sub (a b : Vec3) : Vec3 := ⟨a.x - b.x, a.y - b.y, a.z - b.z⟩

def Vec3.multiplyScalar (a : Vec3) (s : ℚ) : Vec3 := ⟨a.x * s, a.y * s, a.z * s⟩

def Vec3.dot (a b : Vec3) : ℚ := a.x * b.x + a.y * b.y + a.z * b.z

/-- Quaternion with rational components (three.js stores x, y, z, w). -/
structure Quat where
  x : ℚ
  y : ℚ
  z : ℚ
  w : ℚ
deriving DecidableEq, Repr

def Quat.normSq (q : Quat) : ℚ := q.x ^ 2 + q.y ^ 2 + q.z ^ 2 + q.w ^ 2

/-- `Vector3.applyQuaternion` of three.js:
`t = 2 * cross(q.xyz, v); v + q.w * t + cross(q.xyz, t)`. -/
def Vec3.applyQuaternion (v : Vec3) (q : Quat) : Vec3 :=
  let tx := 2 * (q.y * v.z - q.z * v.y)
  let ty := 2 * (q.z * v.x - q.x * v.z)
  let tz := 2 * (q.x * v.y - q.y * v.x)
  ⟨v.x + q.w * tx + q.y * tz - q.z * ty,
   v.y + q.w * ty + q.z * tx - q.x * tz,
   v.z + q.w * tz + q.x * ty - q.y * tx⟩

theorem applyQuaternion_dot (q : Quat) (v w : Vec3) (h : q.normSq = 1) :
    Vec3.dot (v.applyQuaternion q) (w.applyQuaternion q) = Vec3.dot v w := by
  simp only [Quat.normSq] at h
  simp only [Vec3.applyQuaternion, Vec3.dot]
  linear_combination (4 * ((q.x ^ 2 + q.y ^ 2 + q.z ^ 2) *
      (v.x * w.x + v.y * w.y + v.z * w.z) -
      (q.x * v.x + q.y * v.y + q.z * v.z) *
      (q.x * w.x + q.y * w.y + q.z * w.z))) * h

-- --- Global Configuration (the `config` literal of main3d.js, desktop
-- defaults; only the fields the claims touch are embedded) ---

def config.star.speedMin : ℚ := 40
def config.star.speedMax : ℚ := 80
def config.meteor.speedMin : ℚ := 350
def config.meteor.speedMax : ℚ := 470
def config.meteor.offsetMax : ℚ := 10
def config.meteor.travelDistance : ℚ := 2200
def config.meteor.baseDistance : ℚ := 1100
def config.meteor.collisionDistance : ℚ := 32
def config.meteor.cooldown : ℚ := 1 / 2
def config.spark.duration : ℚ := 2 / 5
def config.spark.maxRadius : ℚ := 100
def config.spark.minRadius : ℚ := 10
def config.spark.maxOpacity : ℚ := 9 / 20
def config.flame.count : ℚ := 14000
def config.flame.lengthMin : ℚ := 10
def config.flame.lengthMax : ℚ := 30
def config.flame.tailOffset : ℚ := -75

-- --- Meteor Animation (`animateMeteors`, main3d.js lines 333-384) ---

/-- Phase of a meteor:
`t = ((elapsed + info.offset) * info.speed) % config.meteor.travelDistance
     / config.meteor.travelDistance` (line 351). -/
def meteorPhase (elapsed offset speed : ℚ) : ℚ :=
  jsFmod ((elapsed + offset) * speed) config.meteor.travelDistance /
    config.meteor.travelDistance

/-- Position of a meteor (lines 353-356).  `cam` is the ship's world origin,
`dirv` the heading vector the loop computed, `q` the ship quaternion, and
`lx`, `ly` the meteor's sampled lateral offsets
(`Math.cos(info.theta) * info.r` and `info.y`; the local offset always has
`z = 0`). -/
def meteorPosition (q : Quat) (cam dirv : Vec3) (lx ly : ℚ)
    (offset speed elapsed : ℚ) : Vec3 :=
  let t := meteorPhase elapsed offset speed
  let base := (cam.add (dirv.multiplyScalar config.meteor.baseDistance)).add
    ((Vec3.mk lx ly 0).applyQuaternion q)
  base.add (dirv.multiplyScalar (-t * config.meteor.travelDistance))

theorem meteorPhase_mem_Ico (elapsed offset speed : ℚ)
    (hel : 0 ≤ elapsed) (hoff : 0 ≤ offset) (hsp : 0 ≤ speed) :
    0 ≤ meteorPhase elapsed offset speed ∧ meteorPhase elapsed offset speed < 1 := by
  have ha : 0 ≤ (elapsed + offset) * speed := mul_nonneg (by linarith) hsp
  have hb : (0 : ℚ) < config.meteor.travelDistance := by norm_num [config.meteor.travelDistance]
  constructor
  · exact div_nonneg (jsFmod_nonneg _ _ ha hb) hb.le
  · rw [meteorPhase, div_lt_one hb]
    exact jsFmod_lt _ _ ha hb

theorem meteorPhase_periodic (elapsed offset speed : ℚ)
    (hel : 0 ≤ elapsed) (hoff : 0 ≤ offset) (hsp : 0 < speed) :
    meteorPhase (elapsed + config.meteor.travelDistance / speed) offset speed =
      meteorPhase elapsed offset speed := by
  have ha : 0 ≤ (elapsed + offset) * speed := mul_nonneg (by linarith) hsp.le
  have hb : (0 : ℚ) < config.meteor.travelDistance := by norm_num [config.meteor.travelDistance]
  have harg : (elapsed + config.meteor.travelDistance / speed + offset) * speed =
      (elapsed + offset) * speed + config.meteor.travelDistance := by
    field_simp
    ring
  rw [meteorPhase, meteorPhase, harg, jsFmod_add_self _ _ ha hb]

/-- C1: for every meteor the phase
`t = ((elapsed + offset) * speed) % travelDistance / travelDistance` lies in
`[0, 1)`; with the ship state fixed within a frame, the meteor position is
periodic in elapsed time with period `travelDistance / speed`; and for
`speed = 400`, `offset = 0`, `travelDistance = 2200` the phase is `0` at
`elapsed = 0` and wraps back to `0` at `elapsed = 5.5`. -/
theorem meteor_phase_bounds_period (q : Quat) (cam dirv : Vec3)
    (lx ly offset speed elapsed : ℚ)
    (hel : 0 ≤ elapsed) (hoff : 0 ≤ offset) (hsp : 0 < speed) :
    (0 ≤ meteorPhase elapsed offset speed ∧ meteorPhase elapsed offset speed < 1) ∧
    meteorPosition q cam dirv lx ly offset speed
        (elapsed + config.meteor.travelDistance / speed) =
      meteorPosition q cam dirv lx ly offset speed elapsed ∧
    meteorPhase 0 0 400 = 0 ∧
    meteorPhase (11 / 2) 0 400 = 0 := by
  refine ⟨meteorPhase_mem_Ico elapsed offset speed hel hoff hsp.le, ?_, ?_, ?_⟩
  · rw [meteorPosition, meteorPosition,
      meteorPhase_periodic elapsed offset speed hel hoff hsp]
  · norm_num [meteorPhase, jsFmod, jsTrunc, config.meteor.travelDistance]
  · norm_num [meteorPhase, jsFmod, jsTrunc, config.meteor.travelDistance]

/-- Witness for C1 at `elapsed = 1`, `offset = 0`, `speed = 400`, identity
quaternion and concrete vectors. -/
theorem meteor_phase_bounds_period_witness :
    (0 ≤ meteorPhase 1 0 400 ∧ meteorPhase 1 0 400 < 1) ∧
    meteorPosition ⟨0, 0, 0, 1⟩ ⟨0, 0, 0⟩ ⟨0, 0, -1⟩ 3 4 0 400
        (1 + config.meteor.travelDistance / 400) =
      meteorPosition ⟨0, 0, 0, 1⟩ ⟨0, 0, 0⟩ ⟨0, 0, -1⟩ 3 4 0 400 1 ∧
    meteorPhase 0 0 400 = 0 ∧
    meteorPhase (11 / 2) 0 400 = 0 :=
  meteor_phase_bounds_period ⟨0, 0, 0, 1⟩ ⟨0, 0, 0⟩ ⟨0, 0, -1⟩ 3 4 0 400 1
    (by norm_num) (by norm_num) (by norm_num)

-- --- Dot product helper lemmas ---

theorem dot_translate (p c d : Vec3) (s : ℚ) (hunit : d.dot d = 1) :
    ((p.add (d.multiplyScalar s)).sub c).dot d = (p.sub c).dot d + s := by
  simp only [Vec3.add, Vec3.sub, Vec3.multiplyScalar, Vec3.dot] at *
  linear_combination s * hunit

theorem dot_anchor (o c d : Vec3) (r : ℚ) :
    ((o.add (c.add (d.multiplyScalar r))).sub c).dot d =
      o.dot d + r * (d.dot d) := by
  simp only [Vec3.add, Vec3.sub, Vec3.multiplyScalar, Vec3.dot]
  ring

-- --- Star Animation (`animateStars`, main3d.js lines 256-290) ---

/-- A star's per-frame state: its position and its fixed speed scalar
(from `starBaseInfos`). -/
structure StarInfo where
  pos : Vec3
  speed : ℚ
deriving DecidableEq, Repr

/-- Ship heading as the loop computes it: `(0,0,-1)` rotated by the ship
quaternion (for a unit quaternion the result is already unit length, so the
`normalize()` call of the source is the identity there). -/
def starHeading (q : Quat) : Vec3 := (Vec3.mk 0 0 (-1)).applyQuaternion q

/-- The position a recycled star is teleported to (lines 277-286): a random
point of the disk `1100` units ahead of the ship; `lx`, `ly` are the sampled
disk coordinates (`Math.cos(theta) * r` and `y`; the local offset always has
`z = 0`) rotated by the ship quaternion. -/
def starRespawn (q : Quat) (cam : Vec3) (lx ly : ℚ) : Vec3 :=
  ((Vec3.mk lx ly 0).applyQuaternion q).add
    (cam.add ((starHeading q).multiplyScalar 1100))

/-- One update of one star (lines 265-287): advance the position by
`dir * -speed * delta`; if the signed distance from the ship along the
heading has fallen below `-1100`, teleport to the respawn point. -/
def animateStarsStep (q : Quat) (cam : Vec3) (delta lx ly : ℚ)
    (st : StarInfo) : StarInfo :=
  let dir := starHeading q
  let moved := st.pos.add (dir.multiplyScalar (-st.speed * delta))
  if (moved.sub cam).dot dir < -1100 then { st with pos := starRespawn q cam lx ly }
  else { st with pos := moved }

/-- The random draw of one frame: the frame delta and the disk sample used
if the star is recycled. -/
structure StarFrame where
  delta : ℚ
  lx : ℚ
  ly : ℚ
deriving DecidableEq, Repr

/-- Iterated star updates over a list of frames (ship state fixed). -/
def animateStarsRun (q : Quat) (cam : Vec3) (frames : List StarFrame)
    (st : StarInfo) : StarInfo :=
  frames.foldl (fun s f => animateStarsStep q cam f.delta f.lx f.ly s) st

theorem starHeading_dot_self (q : Quat) (h : q.normSq = 1) :
    (starHeading q).dot (starHeading q) = 1 := by
  rw [starHeading, applyQuaternion_dot q _ _ h]
  norm_num [Vec3.dot]

theorem starHeading_dot_disk (q : Quat) (lx ly : ℚ) (h : q.normSq = 1) :
    ((Vec3.mk lx ly 0).applyQuaternion q).dot (starHeading q) = 0 := by
  rw [starHeading, applyQuaternion_dot q _ _ h]
  norm_num [Vec3.dot]

theorem starRespawn_dist (q : Quat) (cam : Vec3) (lx ly : ℚ) (hq : q.normSq = 1) :
    ((starRespawn q cam lx ly).sub cam).dot (starHeading q) = 1100 := by
  rw [starRespawn, dot_anchor, starHeading_dot_disk q lx ly hq,
    starHeading_dot_self q hq]
  norm_num

theorem animateStarsStep_dist (q : Quat) (cam : Vec3) (delta lx ly : ℚ)
    (st : StarInfo) (hq : q.normSq = 1) :
    ((animateStarsStep q cam delta lx ly st).pos.sub cam).dot (starHeading q) ≥ -1100 := by
  rw [animateStarsStep]
  split_ifs with hcase
  · simp only [starRespawn_dist q cam lx ly hq]
    norm_num
  · simpa using not_lt.mp hcase

theorem animateStarsRun_dist (q : Quat) (cam : Vec3) (frames : List StarFrame)
    (st : StarInfo) (hq : q.normSq = 1)
    (h0 : (st.pos.sub cam).dot (starHeading q) ≥ -1100) :
    ((animateStarsRun q cam frames st).pos.sub cam).dot (starHeading q) ≥ -1100 := by
  induction frames generalizing st with
  | nil => simpa [animateStarsRun] using h0
  | cons f rest ih =>
      have hstep := animateStarsStep_dist q cam f.delta f.lx f.ly st hq
      simpa [animateStarsRun, List.foldl_cons] using
        ih (animateStarsStep q cam f.delta f.lx f.ly st) hstep

/-- C4: each star is advanced by `-direction * speed * delta`; the moved
position's signed distance along the heading drops below the pre-frame
value by exactly one frame's travel `speed * delta` (so it never falls
below `-1100` by more than that); a star whose moved position falls below
the `-1100` threshold is respawned exactly `1100` units ahead of the ship
(the disk offset is orthogonal to the heading); and after any number of
update steps the signed distance at frame boundaries never falls below
`-1100`. -/
theorem star_band_invariant (q : Quat) (cam : Vec3) (delta lx ly : ℚ)
    (st : StarInfo) (frames : List StarFrame)
    (hq : q.normSq = 1) (hsp : 0 ≤ st.speed) (hdelta : 0 ≤ delta)
    (h0 : (st.pos.sub cam).dot (starHeading q) ≥ -1100) :
    ((st.pos.add ((starHeading q).multiplyScalar (-st.speed * delta))).sub cam).dot
        (starHeading q) =
      (st.pos.sub cam).dot (starHeading q) - st.speed * delta ∧
    ((st.pos.add ((starHeading q).multiplyScalar (-st.speed * delta))).sub cam).dot
        (starHeading q) ≥ -1100 - st.speed * delta ∧
    (¬(((st.pos.add ((starHeading q).multiplyScalar (-st.speed * delta))).sub cam).dot
          (starHeading q) < -1100) →
      (animateStarsStep q cam delta lx ly st).pos =
        st.pos.add ((starHeading q).multiplyScalar (-st.speed * delta))) ∧
    (((st.pos.add ((starHeading q).multiplyScalar (-st.speed * delta))).sub cam).dot
          (starHeading q) < -1100 →
      (animateStarsStep q cam delta lx ly st).pos = starRespawn q cam lx ly ∧
      ((starRespawn q cam lx ly).sub cam).dot (starHeading q) = 1100) ∧
    ((animateStarsStep q cam delta lx ly st).pos.sub cam).dot (starHeading q) ≥ -1100 ∧
    ((animateStarsRun q cam frames st).pos.sub cam).dot (starHeading q) ≥ -1100 := by
  have hmove : ((st.pos.add ((starHeading q).multiplyScalar (-st.speed * delta))).sub
      cam).dot (starHeading q) =
      (st.pos.sub cam).dot (starHeading q) + (-st.speed * delta) :=
    dot_translate st.pos cam (starHeading q) (-st.speed * delta)
      (starHeading_dot_self q hq)
  refine ⟨by rw [hmove]; ring, by rw [hmove]; linarith, ?_, ?_,
    animateStarsStep_dist q cam delta lx ly st hq,
    animateStarsRun_dist q cam frames st hq h0⟩
  · intro hkeep
    rw [animateStarsStep, if_neg hkeep]
  · intro hrec
    refine ⟨?_, starRespawn_dist q cam lx ly hq⟩
    rw [animateStarsStep, if_pos hrec]

/-- Witness for C4: identity quaternion, star at the origin with speed 40,
one frame of delta 1/60. -/
theorem star_band_invariant_witness :
    (((StarInfo.mk ⟨0, 0, 0⟩ 40).pos.add ((starHeading ⟨0, 0, 0, 1⟩).multiplyScalar
        (-(StarInfo.mk ⟨0, 0, 0⟩ 40).speed * (1 / 60)))).sub ⟨0, 0, 0⟩).dot
        (starHeading ⟨0, 0, 0, 1⟩) =
      ((StarInfo.mk ⟨0, 0, 0⟩ 40).pos.sub ⟨0, 0, 0⟩).dot (starHeading ⟨0, 0, 0, 1⟩) -
        (StarInfo.mk ⟨0, 0, 0⟩ 40).speed * (1 / 60) ∧
    (((StarInfo.mk ⟨0, 0, 0⟩ 40).pos.add ((starHeading ⟨0, 0, 0, 1⟩).multiplyScalar
        (-(StarInfo.mk ⟨0, 0, 0⟩ 40).speed * (1 / 60)))).sub ⟨0, 0, 0⟩).dot
        (starHeading ⟨0, 0, 0, 1⟩) ≥ -1100 - (StarInfo.mk ⟨0, 0, 0⟩ 40).speed * (1 / 60) ∧
    (¬((((StarInfo.mk ⟨0, 0, 0⟩ 40).pos.add ((starHeading ⟨0, 0, 0, 1⟩).multiplyScalar
        (-(StarInfo.mk ⟨0, 0, 0⟩ 40).speed * (1 / 60)))).sub ⟨0, 0, 0⟩).dot
          (starHeading ⟨0, 0, 0, 1⟩) < -1100) →
      (animateStarsStep ⟨0, 0, 0, 1⟩ ⟨0, 0, 0⟩ (1 / 60) 2 3
          (StarInfo.mk ⟨0, 0, 0⟩ 40)).pos =
        (StarInfo.mk ⟨0, 0, 0⟩ 40).pos.add ((starHeading ⟨0, 0, 0, 1⟩).multiplyScalar
          (-(StarInfo.mk ⟨0, 0, 0⟩ 40).speed * (1 / 60)))) ∧
    ((((StarInfo.mk ⟨0, 0, 0⟩ 40).pos.add ((starHeading ⟨0, 0, 0, 1⟩).multiplyScalar
        (-(StarInfo.mk ⟨0, 0, 0⟩ 40).speed * (1 / 60)))).sub ⟨0, 0, 0⟩).dot
          (starHeading ⟨0, 0, 0, 1⟩) < -1100 →
      (animateStarsStep ⟨0, 0, 0, 1⟩ ⟨0, 0, 0⟩ (1 / 60) 2 3
          (StarInfo.mk ⟨0, 0, 0⟩ 40)).pos = starRespawn ⟨0, 0, 0, 1⟩ ⟨0, 0, 0⟩ 2 3 ∧
      ((starRespawn ⟨0, 0, 0, 1⟩ ⟨0, 0, 0⟩ 2 3).sub ⟨0, 0, 0⟩).dot
          (starHeading ⟨0, 0, 0, 1⟩) = 1100) ∧
    ((animateStarsStep ⟨0, 0, 0, 1⟩ ⟨0, 0, 0⟩ (1 / 60) 2 3
        (StarInfo.mk ⟨0, 0, 0⟩ 40)).pos.sub ⟨0, 0, 0⟩).dot
        (starHeading ⟨0, 0, 0, 1⟩) ≥ -1100 ∧
    ((animateStarsRun ⟨0, 0, 0, 1⟩ ⟨0, 0, 0⟩ [⟨1 / 60, 2, 3⟩]
        (StarInfo.mk ⟨0, 0, 0⟩ 40)).pos.sub ⟨0, 0, 0⟩).dot
        (starHeading ⟨0, 0, 0, 1⟩) ≥ -1100 :=
  star_band_invariant ⟨0, 0, 0, 1⟩ ⟨0, 0, 0⟩ (1 / 60) 2 3 ⟨⟨0, 0, 0⟩, 40⟩
    [⟨1 / 60, 2, 3⟩] (by norm_num [Quat.normSq]) (by norm_num) (by norm_num)
    (by norm_num [Vec3.sub, Vec3.dot, starHeading, Vec3.applyQuaternion])

-- --- Meteor collision / cooldown (main3d.js lines 364-383) ---

/-- One frame of the per-meteor collision and cooldown logic: first, if the
meteor-to-ship distance is below `config.meteor.collisionDistance` and the
cooldown is `<= 0`, a spark is triggered and the cooldown reset to
`config.meteor.cooldown`; then `if (info.cooldown > 0) info.cooldown -= delta`.
Returns the new cooldown and whether a spark was triggered. -/
def meteorCooldownStep (dist cooldown delta : ℚ) : ℚ × Bool :=
  let hit := dist < config.meteor.collisionDistance ∧ cooldown ≤ 0
  let cd := if dist < config.meteor.collisionDistance ∧ cooldown ≤ 0
            then config.meteor.cooldown else cooldown
  (if 0 < cd then cd - delta else cd, decide hit)

/-- Counterexample to C5 as stated: with no collision (`dist = 100`), a
cooldown of `1/2` and a frame delta of `7/10`, the cooldown becomes `-1/5`,
i.e. negative (it is not clamped at zero); and a cooldown already at `0`
is not decremented at all (it does not decrement "every frame regardless
of its current value"). -/
theorem meteor_cooldown_claim_false :
    (meteorCooldownStep 100 (1 / 2) (7 / 10)).1 = -(1 / 5) ∧
    (meteorCooldownStep 100 (1 / 2) (7 / 10)).1 < 0 ∧
    (meteorCooldownStep 100 0 (7 / 10)).1 = 0 := by
  norm_num [meteorCooldownStep, config.meteor.collisionDistance, config.meteor.cooldown]

/-- C5 amended: the cooldown is decremented only while it is positive (a
nonpositive cooldown is left unchanged until a re-trigger), it is not
clamped at zero and may undershoot, but never by more than one frame's
delta below `min cooldown 0`; a spark triggers exactly when the distance is
below the threshold and the cooldown is `<= 0`, and a trigger resets the
cooldown to `0.5` (then decremented by the same frame's delta). -/
theorem meteor_cooldown_amended (dist cooldown delta : ℚ) (hdelta : 0 ≤ delta) :
    ((meteorCooldownStep dist cooldown delta).2 = true ↔
      dist < config.meteor.collisionDistance ∧ cooldown ≤ 0) ∧
    ((meteorCooldownStep dist cooldown delta).2 = true →
      (meteorCooldownStep dist cooldown delta).1 = config.meteor.cooldown - delta) ∧
    ((meteorCooldownStep dist cooldown delta).2 = false → 0 < cooldown →
      (meteorCooldownStep dist cooldown delta).1 = cooldown - delta) ∧
    ((meteorCooldownStep dist cooldown delta).2 = false → cooldown ≤ 0 →
      (meteorCooldownStep dist cooldown delta).1 = cooldown) ∧
    (meteorCooldownStep dist cooldown delta).1 ≥ min cooldown 0 - delta := by
  by_cases hhit : dist < config.meteor.collisionDistance ∧ cooldown ≤ 0
  · have hcd : (0 : ℚ) < config.meteor.cooldown := by norm_num [config.meteor.cooldown]
    refine ⟨by simp [meteorCooldownStep, hhit], ?_, ?_, ?_, ?_⟩
    · intro _
      simp [meteorCooldownStep, hhit, hcd]
    · intro hfalse
      simp [meteorCooldownStep, hhit] at hfalse
    · intro hfalse
      simp [meteorCooldownStep, hhit] at hfalse
    · have hmin : min cooldown 0 ≤ 0 := min_le_right _ _
      have : (meteorCooldownStep dist cooldown delta).1 =
          config.meteor.cooldown - delta := by simp [meteorCooldownStep, hhit, hcd]
      rw [this]
      have : (0 : ℚ) ≤ config.meteor.cooldown := hcd.le
      linarith
  · refine ⟨by simp [meteorCooldownStep, hhit], ?_, ?_, ?_, ?_⟩
    · intro htrue
      simp [meteorCooldownStep, hhit] at htrue
    · intro _ hpos
      simp [meteorCooldownStep, hhit, hpos]
    · intro _ hnonpos
      have hnpos : ¬(0 : ℚ) < cooldown := not_lt.mpr hnonpos
      simp [meteorCooldownStep, hhit, hnpos]
    · by_cases hpos : 0 < cooldown
      · have : (meteorCooldownStep dist cooldown delta).1 = cooldown - delta := by
          simp [meteorCooldownStep, hhit, hpos]
        rw [this]
        have hmin : min cooldown 0 ≤ cooldown := min_le_left _ _
        linarith
      · have : (meteorCooldownStep dist cooldown delta).1 = cooldown := by
          simp [meteorCooldownStep, hhit, hpos]
        rw [this]
        have hmin : min cooldown 0 ≤ cooldown := min_le_left _ _
        linarith

/-- Witness for the amended C5 at `dist = 100`, `cooldown = 1/2`,
`delta = 1/60`. -/
theorem meteor_cooldown_amended_witness :
    ((meteorCooldownStep 100 (1 / 2) (1 / 60)).2 = true ↔
      (100 : ℚ) < config.meteor.collisionDistance ∧ (1 / 2 : ℚ) ≤ 0) ∧
    ((meteorCooldownStep 100 (1 / 2) (1 / 60)).2 = true →
      (meteorCooldownStep 100 (1 / 2) (1 / 60)).1 = config.meteor.cooldown - 1 / 60) ∧
    ((meteorCooldownStep 100 (1 / 2) (1 / 60)).2 = false → (0 : ℚ) < 1 / 2 →
      (meteorCooldownStep 100 (1 / 2) (1 / 60)).1 = 1 / 2 - 1 / 60) ∧
    ((meteorCooldownStep 100 (1 / 2) (1 / 60)).2 = false → (1 / 2 : ℚ) ≤ 0 →
      (meteorCooldownStep 100 (1 / 2) (1 / 60)).1 = 1 / 2) ∧
    (meteorCooldownStep 100 (1 / 2) (1 / 60)).1 ≥ min (1 / 2) 0 - 1 / 60 :=
  meteor_cooldown_amended 100 (1 / 2) (1 / 60) (by norm_num)

-- --- Boost button (main3d.js lines 1141-1357) ---

/-- The module state the boost interaction reads and writes: the `isBoosting`
flag, the boosted config fields, and the three backup slots
(`meteorSpeedBackup`, `flameCountBackup`, `flameLengthBackup`), which start
as `null`. -/
structure BoostState where
  isBoosting : Bool
  meteorSpeedMin : ℚ
  meteorSpeedMax : ℚ
  flameCount : ℚ
  flameLengthMin : ℚ
  flameLengthMax : ℚ
  meteorSpeedBackup : Option (ℚ × ℚ)
  flameCountBackup : Option ℚ
  flameLengthBackup : Option (ℚ × ℚ)
deriving DecidableEq, Repr

def BOOST_SPEED_FACTOR : ℚ := 5

def BOOST_FLAME_FACTOR : ℚ := 4

/-- JavaScript truthiness of the numeric backup slot `flameCountBackup`:
`null` and `0` are falsy.  (The object-valued backups are truthy exactly
when non-null.) -/
def numTruthy : Option ℚ → Bool
  | none => false
  | some c => decide (c ≠ 0)

/-- The `mousedown` handler of `boostBtn` (lines 1163-1229): if already
boosting, return; otherwise capture each backup if its slot is falsy, then
multiply the meteor speed range by 5 and floor-multiply the flame count and
length range by 4, reading from the backups. -/
def startBoost (s : BoostState) : BoostState :=
  if s.isBoosting then s
  else
    let msb := match s.meteorSpeedBackup with
      | none => (s.meteorSpeedMin, s.meteorSpeedMax)
      | some b => b
    let fcb := if numTruthy s.flameCountBackup
      then s.flameCountBackup.getD 0 else s.flameCount
    let flb := match s.flameLengthBackup with
      | none => (s.flameLengthMin, s.flameLengthMax)
      | some b => b
    { isBoosting := true
      meteorSpeedMin := msb.1 * BOOST_SPEED_FACTOR
      meteorSpeedMax := msb.2 * BOOST_SPEED_FACTOR
      flameCount := (⌊fcb * BOOST_FLAME_FACTOR⌋ : ℤ)
      flameLengthMin := (⌊flb.1 * BOOST_FLAME_FACTOR⌋ : ℤ)
      flameLengthMax := (⌊flb.2 * BOOST_FLAME_FACTOR⌋ : ℤ)
      meteorSpeedBackup := some msb
      flameCountBackup := some fcb
      flameLengthBackup := some flb }

/-- The `stopBoost` handler (lines 1241-1287): if not boosting, return;
otherwise restore each config field from its backup slot when that slot is
truthy, and clear `isBoosting`.  The backup slots themselves are never
reset to `null`. -/
def stopBoost (s : BoostState) : BoostState :=
  if !s.isBoosting then s
  else
    let s1 := match s.meteorSpeedBackup with
      | some b => { s with meteorSpeedMin := b.1, meteorSpeedMax := b.2 }
      | none => s
    let s2 := if numTruthy s1.flameCountBackup
      then { s1 with flameCount := s1.flameCountBackup.getD 0 } else s1
    let s3 := match s2.flameLengthBackup with
      | some b => { s2 with flameLengthMin := b.1, flameLengthMax := b.2 }
      | none => s2
    { s3 with isBoosting := false }

/-- A press or a release of the boost button. -/
inductive BoostEvent
  | press
  | release
deriving DecidableEq, Repr

def boostEventStep (s : BoostState) (e : BoostEvent) : BoostState :=
  match e with
  | BoostEvent.press => startBoost s
  | BoostEvent.release => stopBoost s

/-- The state at page load: not boosting, the config defaults, all three
backup slots `null`. -/
def initialBoostState : BoostState :=
  { isBoosting := false
    meteorSpeedMin := config.meteor.speedMin
    meteorSpeedMax := config.meteor.speedMax
    flameCount := config.flame.count
    flameLengthMin := config.flame.lengthMin
    flameLengthMax := config.flame.lengthMax
    meteorSpeedBackup := none
    flameCountBackup := none
    flameLengthBackup := none }

def runBoost (evs : List BoostEvent) : BoostState :=
  evs.foldl boostEventStep initialBoostState

/-- Reachability invariant of the boost state: while idle, every non-null
backup slot holds exactly the current config values; while boosting, every
slot is filled and the config fields are the boosted images of the backups. -/
def boostInv (s : BoostState) : Prop :=
  if s.isBoosting then
    (∃ p, s.meteorSpeedBackup = some p ∧
      s.meteorSpeedMin = p.1 * BOOST_SPEED_FACTOR ∧
      s.meteorSpeedMax = p.2 * BOOST_SPEED_FACTOR) ∧
    (∃ c, s.flameCountBackup = some c ∧
      s.flameCount = (⌊c * BOOST_FLAME_FACTOR⌋ : ℤ)) ∧
    (∃ p, s.flameLengthBackup = some p ∧
      s.flameLengthMin = (⌊p.1 * BOOST_FLAME_FACTOR⌋ : ℤ) ∧
      s.flameLengthMax = (⌊p.2 * BOOST_FLAME_FACTOR⌋ : ℤ))
  else
    (s.meteorSpeedBackup = none ∨
      s.meteorSpeedBackup = some (s.meteorSpeedMin, s.meteorSpeedMax)) ∧
    (s.flameCountBackup = none ∨ s.flameCountBackup = some s.flameCount) ∧
    (s.flameLengthBackup = none ∨
      s.flameLengthBackup = some (s.flameLengthMin, s.flameLengthMax))

theorem boostInv_initial : boostInv initialBoostState := by
  simp [boostInv, initialBoostState]

theorem boostInv_start (s : BoostState) (h : boostInv s) :
    boostInv (startBoost s) := by
  by_cases hb : s.isBoosting
  · simpa [startBoost, hb] using h
  · simp only [startBoost, hb, if_neg, Bool.false_eq_true, if_false]
    refine ⟨⟨_, rfl, rfl, rfl⟩, ⟨_, rfl, rfl⟩, ⟨_, rfl, rfl, rfl⟩⟩

theorem boostInv_stop (s : BoostState) (h : boostInv s) :
    boostInv (stopBoost s) := by
  obtain ⟨b, m1, m2, fc, l1, l2, msb, fcb, flb⟩ := s
  cases b
  · simpa [stopBoost] using h
  · rw [boostInv] at h
    simp only [if_pos] at h
    obtain ⟨⟨p, hp, hp1, hp2⟩, ⟨c, hc, hc1⟩, ⟨r, hr, hr1, hr2⟩⟩ := h
    subst hp hc hr hp1 hp2 hc1 hr1 hr2
    by_cases hcz : c = 0
    · subst hcz
      simp [stopBoost, boostInv, numTruthy]
    · simp [stopBoost, boostInv, numTruthy, hcz]

theorem boostInv_run (evs : List BoostEvent) : boostInv (runBoost evs) := by
  rw [runBoost]
  have h : ∀ s, boostInv s → boostInv (evs.foldl boostEventStep s) := by
    induction evs with
    | nil => intro s hs; simpa using hs
    | cons e rest ih =>
        intro s hs
        rw [List.foldl_cons]
        refine ih _ ?_
        cases e
        · exact boostInv_start s hs
        · exact boostInv_stop s hs
  exact h initialBoostState boostInv_initial

theorem boost_restore_of_inv (s : BoostState) (hb : s.isBoosting = false)
    (h : boostInv s) :
    (stopBoost (startBoost s)).meteorSpeedMin = s.meteorSpeedMin ∧
    (stopBoost (startBoost s)).meteorSpeedMax = s.meteorSpeedMax ∧
    (stopBoost (startBoost s)).flameCount = s.flameCount ∧
    (stopBoost (startBoost s)).flameLengthMin = s.flameLengthMin ∧
    (stopBoost (startBoost s)).flameLengthMax = s.flameLengthMax ∧
    (stopBoost (startBoost s)).isBoosting = false := by
  obtain ⟨b, m1, m2, fc, l1, l2, msb, fcb, flb⟩ := s
  simp only at hb
  subst hb
  rw [boostInv] at h
  simp only [Bool.false_eq_true, if_false] at h
  obtain ⟨hm, hf, hl⟩ := h
  by_cases hz : fc = 0
  · subst hz
    rcases hm with hm | hm <;> rcases hf with hf | hf <;> rcases hl with hl | hl <;>
      subst hm hf hl <;> simp [startBoost, stopBoost, numTruthy]
  · rcases hm with hm | hm <;> rcases hf with hf | hf <;> rcases hl with hl | hl <;>
      subst hm hf hl <;> simp [startBoost, stopBoost, numTruthy, hz]

/-- C2: from any idle state the page can reach, pressing the boost button
and then releasing it (with no second press in between) leaves the meteor
speed range, the flame count and the flame length range exactly equal to
their values immediately before the press, and ends idle. -/
theorem boost_press_release_restores (evs : List BoostEvent)
    (hidle : (runBoost evs).isBoosting = false) :
    (stopBoost (startBoost (runBoost evs))).meteorSpeedMin =
      (runBoost evs).meteorSpeedMin ∧
    (stopBoost (startBoost (runBoost evs))).meteorSpeedMax =
      (runBoost evs).meteorSpeedMax ∧
    (stopBoost (startBoost (runBoost evs))).flameCount =
      (runBoost evs).flameCount ∧
    (stopBoost (startBoost (runBoost evs))).flameLengthMin =
      (runBoost evs).flameLengthMin ∧
    (stopBoost (startBoost (runBoost evs))).flameLengthMax =
      (runBoost evs).flameLengthMax ∧
    (stopBoost (startBoost (runBoost evs))).isBoosting = false :=
  boost_restore_of_inv (runBoost evs) hidle (boostInv_run evs)

/-- Witness for C2: the empty event trace (the freshly loaded page). -/
theorem boost_press_release_restores_witness :
    (stopBoost (startBoost (runBoost []))).meteorSpeedMin =
      (runBoost []).meteorSpeedMin ∧
    (stopBoost (startBoost (runBoost []))).meteorSpeedMax =
      (runBoost []).meteorSpeedMax ∧
    (stopBoost (startBoost (runBoost []))).flameCount =
      (runBoost []).flameCount ∧
    (stopBoost (startBoost (runBoost []))).flameLengthMin =
      (runBoost []).flameLengthMin ∧
    (stopBoost (startBoost (runBoost []))).flameLengthMax =
      (runBoost []).flameLengthMax ∧
    (stopBoost (startBoost (runBoost []))).isBoosting = false :=
  boost_press_release_restores [] (by decide)

-- --- Spark effect (createSpark / render, main3d.js lines 587-605, 722-738) ---

/-- A live spark: its start timestamp and the sprite's current displayed
radius (uniform scale) and material opacity. -/
structure Spark where
  start : ℚ
  radius : ℚ
  opacity : ℚ
deriving DecidableEq, Repr

/-- Displayed radius at interpolation parameter `k` (line 734):
`minRadius + (maxRadius - minRadius) * k`. -/
def sparkRadiusAt (k : ℚ) : ℚ :=
  config.spark.minRadius + (config.spark.maxRadius - config.spark.minRadius) * k

/-- Displayed opacity at interpolation parameter `k` (line 736):
`maxOpacity * (1 - k)`. -/
def sparkOpacityAt (k : ℚ) : ℚ := config.spark.maxOpacity * (1 - k)

/-- The per-frame update of one spark (lines 724-737): with
`t = now - start`, remove the spark when `t > duration`, otherwise set its
scale and opacity from `k = t / duration`. -/
def updateSpark (now : ℚ) (s : Spark) : Option Spark :=
  let t := now - s.start
  if config.spark.duration < t then none
  else some ⟨s.start, sparkRadiusAt (t / config.spark.duration),
    sparkOpacityAt (t / config.spark.duration)⟩

/-- The spark list after one frame: expired sparks are removed from the
list (and the scene), live ones are updated in place. -/
def updateSparks (now : ℚ) (xs : List Spark) : List Spark :=
  xs.filterMap (updateSpark now)

/-- C3: one frame of spark updating removes exactly the sparks older than
`duration` and otherwise interpolates the radius linearly from `minRadius`
up to `maxRadius` and the opacity linearly from `maxOpacity` down to `0`
in `k`, both strictly monotonically; every spark surviving an update is at
most `duration` old (no leak); and a spark spawned at `start = 10` is still
present at `elapsed = 10.39` with opacity `0.45 * (1 - 0.975) = 9/800`,
and has been removed at `elapsed = 10.41`. -/
theorem spark_lifecycle (now k1 k2 : ℚ) (s s2 : Spark) (xs : List Spark)
    (hk : k1 < k2) (hmem : s2 ∈ updateSparks now xs) :
    updateSpark now s = (if config.spark.duration < now - s.start then none
      else some ⟨s.start, sparkRadiusAt ((now - s.start) / config.spark.duration),
        sparkOpacityAt ((now - s.start) / config.spark.duration)⟩) ∧
    sparkRadiusAt k1 < sparkRadiusAt k2 ∧
    sparkOpacityAt k2 < sparkOpacityAt k1 ∧
    sparkRadiusAt 0 = config.spark.minRadius ∧
    sparkRadiusAt 1 = config.spark.maxRadius ∧
    sparkOpacityAt 0 = config.spark.maxOpacity ∧
    sparkOpacityAt 1 = 0 ∧
    now - s2.start ≤ config.spark.duration ∧
    updateSpark (1039 / 100) ⟨10, 10, 9 / 20⟩ =
      some ⟨10, 391 / 4, 9 / 800⟩ ∧
    updateSpark (1041 / 100) ⟨10, 10, 9 / 20⟩ = none := by
  refine ⟨rfl, ?_, ?_, ?_, ?_, ?_, ?_, ?_, ?_, ?_⟩
  · unfold sparkRadiusAt config.spark.minRadius config.spark.maxRadius
    linarith
  · unfold sparkOpacityAt config.spark.maxOpacity
    linarith
  · norm_num [sparkRadiusAt]
  · norm_num [sparkRadiusAt, config.spark.minRadius, config.spark.maxRadius]
  · norm_num [sparkOpacityAt]
  · norm_num [sparkOpacityAt]
  · rw [updateSparks, List.mem_filterMap] at hmem
    obtain ⟨a, _, ha⟩ := hmem
    rw [updateSpark] at ha
    by_cases hc : config.spark.duration < now - a.start
    · rw [if_pos hc] at ha
      exact absurd ha (by simp)
    · rw [if_neg hc] at ha
      have hs2 : s2.start = a.start := by
        cases ha
        rfl
      rw [hs2]
      exact not_lt.mp hc
  · norm_num [updateSpark, sparkRadiusAt, sparkOpacityAt, config.spark.duration,
      config.spark.minRadius, config.spark.maxRadius, config.spark.maxOpacity]
  · norm_num [updateSpark, config.spark.duration]

/-- Witness for C3: one spark spawned at `start = 10`, observed at
`now = 10.39`, with `k1 = 0`, `k2 = 1`. -/
theorem spark_lifecycle_witness :
    updateSpark (1039 / 100) ⟨10, 10, 9 / 20⟩ =
      (if config.spark.duration < 1039 / 100 - (Spark.mk 10 10 (9 / 20)).start then none
      else some ⟨(Spark.mk 10 10 (9 / 20)).start,
        sparkRadiusAt ((1039 / 100 - (Spark.mk 10 10 (9 / 20)).start) / config.spark.duration),
        sparkOpacityAt ((1039 / 100 - (Spark.mk 10 10 (9 / 20)).start) / config.spark.duration)⟩) ∧
    sparkRadiusAt 0 < sparkRadiusAt 1 ∧
    sparkOpacityAt 1 < sparkOpacityAt 0 ∧
    sparkRadiusAt 0 = config.spark.minRadius ∧
    sparkRadiusAt 1 = config.spark.maxRadius ∧
    sparkOpacityAt 0 = config.spark.maxOpacity ∧
    sparkOpacityAt 1 = 0 ∧
    1039 / 100 - (Spark.mk 10 (391 / 4) (9 / 800)).start ≤ config.spark.duration ∧
    updateSpark (1039 / 100) ⟨10, 10, 9 / 20⟩ =
      some ⟨10, 391 / 4, 9 / 800⟩ ∧
    updateSpark (1041 / 100) ⟨10, 10, 9 / 20⟩ = none :=
  spark_lifecycle (1039 / 100) 0 1 ⟨10, 10, 9 / 20⟩ ⟨10, 391 / 4, 9 / 800⟩
    [⟨10, 10, 9 / 20⟩] (by norm_num)
    (by norm_num [updateSparks, updateSpark, List.filterMap_cons, sparkRadiusAt,
      sparkOpacityAt, config.spark.duration, config.spark.minRadius,
      config.spark.maxRadius, config.spark.maxOpacity])

-- --- BOOST hold 10s Easter Egg (main3d.js lines 1439-1488) ---

/-- The hold threshold `BOOST_EASTER_EGG_TIME` in milliseconds. -/
def BOOST_EASTER_EGG_TIME : ℚ := 10000

/-- `triggerBoostEasterEgg` (lines 1445-1457): if the latch
`boostEasterEggTriggered` is set, return without firing; otherwise set the
latch and fire the sequence (cue sound + logo fly-in).  Returns the new
latch and whether the sequence fired. -/
def triggerBoostEasterEgg (boostEasterEggTriggered : Bool) : Bool × Bool :=
  if boostEasterEggTriggered then (boostEasterEggTriggered, false)
  else (true, true)

/-- One press-and-hold of the boost button, held for `duration`
milliseconds (lines 1461-1487): the `mousedown` handler returns at once if
the latch is set, else it schedules `triggerBoostEasterEgg` after
`BOOST_EASTER_EGG_TIME`; the timer is cleared on release, so the trigger
runs exactly when the hold reaches the threshold. -/
def boostHoldOutcome (latched : Bool) (duration : ℚ) : Bool × Bool :=
  if latched then (latched, false)
  else if BOOST_EASTER_EGG_TIME ≤ duration then triggerBoostEasterEgg latched
  else (latched, false)

/-- A whole session of holds: the final latch value and how many times the
easter-egg sequence fired. -/
def processBoostHolds (latched : Bool) : List ℚ → Bool × ℕ
  | [] => (latched, 0)
  | d :: rest =>
      let r := boostHoldOutcome latched d
      let k := processBoostHolds r.1 rest
      (k.1, (if r.2 then 1 else 0) + k.2)

theorem processBoostHolds_latched (ds : List ℚ) :
    processBoostHolds true ds = (true, 0) := by
  induction ds with
  | nil => rfl
  | cons d rest ih =>
      simp [processBoostHolds, boostHoldOutcome, ih]

/-- C6: the easter-egg sequence fires at most once per session: over any
list of holds it fires at most once, and from a latched state (after a
hold has crossed the 10-second threshold) it never fires again, whatever
the durations of the later holds. -/
theorem easter_egg_at_most_once (ds : List ℚ) (latched : Bool) :
    (processBoostHolds true ds).2 = 0 ∧
    (processBoostHolds latched ds).2 ≤ 1 := by
  refine ⟨by rw [processBoostHolds_latched], ?_⟩
  induction ds generalizing latched with
  | nil => simp [processBoostHolds]
  | cons d rest ih =>
      cases latched
      · by_cases hd : BOOST_EASTER_EGG_TIME ≤ d
        · simp [processBoostHolds, boostHoldOutcome, triggerBoostEasterEgg, hd,
            processBoostHolds_latched]
        · simpa [processBoostHolds, boostHoldOutcome, hd] using ih false
      · simp [processBoostHolds, boostHoldOutcome, processBoostHolds_latched]

-- --- ShipVate LOGO fly-in animation (main3d.js lines 774-1011) ---

/-- Animation duration `logoFlyDuration` in seconds. -/
def logoFlyDuration : ℚ := 3

/-- The state of the fly-in animation the render override reads:
`logoFlyProgress`, `logoFlyAnimating`, and whether `logoFlyMesh` is still in
the scene. -/
structure LogoFlyState where
  logoFlyProgress : ℚ
  logoFlyAnimating : Bool
  meshPresent : Bool
deriving DecidableEq, Repr

/-- One frame of the fly-in override (lines 957-1009): when animating with
the mesh present, `logoFlyProgress += delta / logoFlyDuration` (the stored
progress itself is never clamped); when the incremented progress reaches
`1.3`, both fly-in meshes are removed and `logoFlyAnimating` cleared. -/
def logoFlyStep (s : LogoFlyState) ( delta : ℚ) : LogoFlyState :=
  if s.logoFlyAnimating && s.meshPresent then
    let p := s.logoFlyProgress + delta / logoFlyDuration
    if 13 / 10 ≤ p then ⟨p, false, false⟩ else ⟨p, true, true⟩
  else s

/-- The clamped parameter `t` the frame actually renders with (line 961):
`let t = logoFlyProgress; if (t > 1.3) t = 1.3`. -/
def logoFlyClampedT (p : ℚ) : ℚ := if 13 / 10 < p then 13 / 10 else p

/-- Counterexample to C7 as stated: from progress `1.29`, one frame of
`delta = 0.06` (so `delta / duration = 0.02`) leaves the stored progress
scalar at `1.31`, outside `[0, 1.3]`. -/
theorem logo_fly_progress_leaves_interval :
    (logoFlyStep ⟨129 / 100, true, true⟩ (6 / 100)).logoFlyProgress = 131 / 100 ∧
    ¬((logoFlyStep ⟨129 / 100, true, true⟩ (6 / 100)).logoFlyProgress ≤ 13 / 10) := by
  norm_num [logoFlyStep, logoFlyDuration]

/-- C7 amended: while the animation runs, the stored progress increases by
exactly `delta / duration` each frame, hence monotonically, and can exceed
`1.3` only by strictly less than one frame's increment; the clamped value
`t` the frame renders with always stays in `[0, 1.3]`; and the animation is
terminal at `1.3`: as soon as the stored progress reaches `1.3`, both
fly-in meshes are removed and the animating flag is cleared, and otherwise
it keeps running. -/
theorem logo_fly_step_spec (s : LogoFlyState) (delta : ℚ)
    (h0 : 0 ≤ s.logoFlyProgress) (h1 : s.logoFlyProgress < 13 / 10)
    (hd : 0 ≤ delta) (ha : s.logoFlyAnimating = true) (hm : s.meshPresent = true) :
    (logoFlyStep s delta).logoFlyProgress =
      s.logoFlyProgress + delta / logoFlyDuration ∧
    s.logoFlyProgress ≤ (logoFlyStep s delta).logoFlyProgress ∧
    (logoFlyStep s delta).logoFlyProgress < 13 / 10 + delta / logoFlyDuration ∧
    0 ≤ logoFlyClampedT ((logoFlyStep s delta).logoFlyProgress) ∧
    logoFlyClampedT ((logoFlyStep s delta).logoFlyProgress) ≤ 13 / 10 ∧
    (13 / 10 ≤ (logoFlyStep s delta).logoFlyProgress →
      (logoFlyStep s delta).logoFlyAnimating = false ∧
      (logoFlyStep s delta).meshPresent = false) ∧
    ((logoFlyStep s delta).logoFlyProgress < 13 / 10 →
      (logoFlyStep s delta).logoFlyAnimating = true ∧
      (logoFlyStep s delta).meshPresent = true) := by
  have hdur : (0 : ℚ) < logoFlyDuration := by norm_num [logoFlyDuration]
  have hinc : 0 ≤ delta / logoFlyDuration := div_nonneg hd hdur.le
  have hp : (logoFlyStep s delta).logoFlyProgress =
      s.logoFlyProgress + delta / logoFlyDuration := by
    rw [logoFlyStep, ha, hm]
    simp only [Bool.and_self, if_true]
    split_ifs <;> rfl
  refine ⟨hp, by rw [hp]; linarith, by rw [hp]; linarith, ?_, ?_, ?_, ?_⟩
  · rw [logoFlyClampedT]
    split_ifs with hc
    · norm_num
    · rw [hp]; linarith
  · rw [logoFlyClampedT]
    split_ifs with hc
    · norm_num
    · linarith
  · intro hge
    rw [hp] at hge
    rw [logoFlyStep, ha, hm]
    simp only [Bool.and_self, if_true, if_pos hge]
    exact ⟨by trivial, by trivial⟩
  · intro hlt
    rw [hp] at hlt
    rw [logoFlyStep, ha, hm]
    simp only [Bool.and_self, if_true, if_neg (not_le.mpr hlt)]
    exact ⟨by trivial, by trivial⟩

/-- Witness for the amended C7: progress `0`, one frame of `delta = 1/60`. -/
theorem logo_fly_step_spec_witness :
    (logoFlyStep ⟨0, true, true⟩ (1 / 60)).logoFlyProgress =
      (LogoFlyState.mk 0 true true).logoFlyProgress + (1 / 60) / logoFlyDuration ∧
    (LogoFlyState.mk 0 true true).logoFlyProgress ≤
      (logoFlyStep ⟨0, true, true⟩ (1 / 60)).logoFlyProgress ∧
    (logoFlyStep ⟨0, true, true⟩ (1 / 60)).logoFlyProgress <
      13 / 10 + (1 / 60) / logoFlyDuration ∧
    0 ≤ logoFlyClampedT ((logoFlyStep ⟨0, true, true⟩ (1 / 60)).logoFlyProgress) ∧
    logoFlyClampedT ((logoFlyStep ⟨0, true, true⟩ (1 / 60)).logoFlyProgress) ≤ 13 / 10 ∧
    (13 / 10 ≤ (logoFlyStep ⟨0, true, true⟩ (1 / 60)).logoFlyProgress →
      (logoFlyStep ⟨0, true, true⟩ (1 / 60)).logoFlyAnimating = false ∧
      (logoFlyStep ⟨0, true, true⟩ (1 / 60)).meshPresent = false) ∧
    ((logoFlyStep ⟨0, true, true⟩ (1 / 60)).logoFlyProgress < 13 / 10 →
      (logoFlyStep ⟨0, true, true⟩ (1 / 60)).logoFlyAnimating = true ∧
      (logoFlyStep ⟨0, true, true⟩ (1 / 60)).meshPresent = true) :=
  logo_fly_step_spec ⟨0, true, true⟩ (1 / 60) (by norm_num) (by norm_num)
    (by norm_num) rfl rfl

-- --- Speed HUD (`updateSpeedDisplay`, main3d.js lines 626-641, 739-748) ---

/-- `Math.round` of JavaScript: round half toward positive infinity. -/
def jsRound (x : ℚ) : ℤ := ⌊x + 1 / 2⌋

/-- `updateSpeedDisplay(speed)` (lines 626-641): the bar width is
`(speed / 99999) * 76` clamped to `[0, 76]`, except that when
`speed == 99999` (the value forced while boosting, line 747) the width
attribute is set to `76 + 12 = 88`; the numeric readout is always
`Math.round(speed)`.  Returns the width written and the rounded readout. -/
def updateSpeedDisplay (speed : ℚ) : ℚ × ℤ :=
  let maxSpeed : ℚ := 99999
  let barMaxWidth : ℚ := 76
  let barWidth := max 0 (min barMaxWidth (speed / maxSpeed * barMaxWidth))
  ((if speed = maxSpeed then barMaxWidth + 12 else barWidth), jsRound speed)

/-- C10: for every speed the bar width is the clamp of
`(speed / 99999) * 76` to `[0, 76]` unless the speed is exactly `99999`,
where the width becomes `88`, which exceeds the nominal maximum `76`; the
readout is always the rounded speed. -/
theorem speed_display_spec (speed : ℚ) :
    (updateSpeedDisplay speed).1 =
      (if speed = 99999 then 88 else max 0 (min 76 (speed / 99999 * 76))) ∧
    0 ≤ max 0 (min 76 (speed / 99999 * 76)) ∧
    max 0 (min 76 (speed / 99999 * 76)) ≤ 76 ∧
    (updateSpeedDisplay 99999).1 = 88 ∧
    (76 : ℚ) < 88 ∧
    (updateSpeedDisplay speed).2 = ⌊speed + 1 / 2⌋ := by
  refine ⟨?_, le_max_left _ _, ?_, ?_, by norm_num, rfl⟩
  · rw [updateSpeedDisplay]
    split_ifs with h <;> simp [h] <;> norm_num
  · apply max_le (by norm_num)
    exact min_le_left _ _
  · norm_num [updateSpeedDisplay]

-- --- Flame particles over the reals (main3d.js lines 555-562, 684-719) ---

/-- Real-valued 3D vector, for the code paths that call `Math.sin` and
`Math.cos`. -/
structure Vec3R where
  x : ℝ
  y : ℝ
  z : ℝ

noncomputable def Vec3R.add (a b : Vec3R) : Vec3R :=
  ⟨a.x + b.x, a.y + b.y, a.z + b.z⟩

noncomputable def Vec3R.multiplyScalar (a : Vec3R) (s : ℝ) : Vec3R :=
  ⟨a.x * s, a.y * s, a.z * s⟩

noncomputable def Vec3R.length (a : Vec3R) : ℝ :=
  Real.sqrt (a.x * a.x + a.y * a.y + a.z * a.z)

/-- `Vector3.normalize` of three.js: divide by the length. -/
noncomputable def Vec3R.normalize (a : Vec3R) : Vec3R :=
  ⟨a.x / a.length, a.y / a.length, a.z / a.length⟩

/-- Real-valued quaternion. -/
structure QuatR where
  x : ℝ
  y : ℝ
  z : ℝ
  w : ℝ

/-- `Vector3.applyQuaternion` of three.js over the reals. -/
noncomputable def Vec3R.applyQuaternion (v : Vec3R) (q : QuatR) : Vec3R :=
  let tx := 2 * (q.y * v.z - q.z * v.y)
  let ty := 2 * (q.z * v.x - q.x * v.z)
  let tz := 2 * (q.x * v.y - q.y * v.x)
  ⟨v.x + q.w * tx + q.y * tz - q.z * ty,
   v.y + q.w * ty + q.z * tx - q.x * tz,
   v.z + q.w * tz + q.x * ty - q.y * tx⟩

def FLAME_SIN_TABLE_SIZE : ℕ := 1024

/-- The precomputed sine lookup table (line 556):
`flameSinTable[i] = Math.sin((i / 1024) * 2 * PI)`. -/
noncomputable def flameSinTable (i : ℕ) : ℝ :=
  Real.sin ((i : ℝ) / (FLAME_SIN_TABLE_SIZE : ℝ) * (2 * Real.pi))

/-- The raw index `Math.floor((val % (2 PI)) / (2 PI) * 1024)` of
`getFlameSin` (line 560). -/
noncomputable def getFlameSinIdx (val : ℝ) : ℤ :=
  ⌊jsFmod val (2 * Real.pi) / (2 * Real.pi) * (FLAME_SIN_TABLE_SIZE : ℝ)⌋

/-- The corrected table index `(idx + 1024) % 1024` (line 561; the JS `%`
on integer values is the truncated remainder). -/
noncomputable def getFlameSinTableIndex (val : ℝ) : ℤ :=
  Int.tmod (getFlameSinIdx val + (FLAME_SIN_TABLE_SIZE : ℤ)) (FLAME_SIN_TABLE_SIZE : ℤ)

/-- `getFlameSin(val)` (lines 557-562). -/
noncomputable def getFlameSin (val : ℝ) : ℝ :=
  flameSinTable (getFlameSinTableIndex val).toNat

theorem jsFmod_bounds {R : Type} [LinearOrderedField R] [FloorRing R]
    (a b : R) (hb : 0 < b) : -b < jsFmod a b ∧ jsFmod a b < b := by
  by_cases ha : 0 ≤ a
  · constructor
    · have := jsFmod_nonneg a b ha hb
      linarith
    · exact jsFmod_lt a b ha hb
  · push_neg at ha
    have hne : ¬(0 ≤ a / b) := by
      push_neg
      exact div_neg_of_neg_of_pos ha hb
    rw [jsFmod, jsTrunc]
    rw [if_neg hne]
    push_cast
    rw [← neg_div]
    have h1 : (⌊-a / b⌋ : R) ≤ -a / b := Int.floor_le _
    have h2 : -a / b < (⌊-a / b⌋ : R) + 1 := Int.lt_floor_add_one _
    have hbne : b ≠ 0 := ne_of_gt hb
    have hcan : b * (-a / b) = -a := by
      field_simp
      ring
    have hb2 : b * (⌊-a / b⌋ : R) ≤ -a := by
      calc b * (⌊-a / b⌋ : R) ≤ b * (-a / b) := mul_le_mul_of_nonneg_left h1 hb.le
        _ = -a := hcan
    have hb3 : -a < b * ((⌊-a / b⌋ : R) + 1) := by
      calc -a = b * (-a / b) := hcan.symm
        _ < b * ((⌊-a / b⌋ : R) + 1) := mul_lt_mul_of_pos_left h2 hb
    constructor
    · nlinarith
    · nlinarith

theorem getFlameSinIdx_bounds (val : ℝ) :
    -(FLAME_SIN_TABLE_SIZE : ℤ) ≤ getFlameSinIdx val ∧
    getFlameSinIdx val < (FLAME_SIN_TABLE_SIZE : ℤ) := by
  have hpi : (0 : ℝ) < 2 * Real.pi := by positivity
  obtain ⟨hlo, hhi⟩ := jsFmod_bounds val (2 * Real.pi) hpi
  have hq1 : jsFmod val (2 * Real.pi) / (2 * Real.pi) < 1 := by
    rw [div_lt_one hpi]
    exact hhi
  have hq2 : -1 < jsFmod val (2 * Real.pi) / (2 * Real.pi) := by
    rw [neg_lt, ← neg_div]
    rw [div_lt_one hpi]
    linarith
  have hN : (0 : ℝ) < (FLAME_SIN_TABLE_SIZE : ℝ) := by
    norm_num [FLAME_SIN_TABLE_SIZE]
  constructor
  · apply Int.le_floor.mpr
    push_cast
    nlinarith
  · apply Int.floor_lt.mpr
    push_cast
    nlinarith

/-- C9: for every real input, the corrected table index
`(floor((val % 2pi) / 2pi * 1024) + 1024) % 1024` lies in `[0, 1024)`, so
the table lookup never reads out of bounds, and the returned value is a
stored sine value, hence in `[-1, 1]`. -/
theorem getFlameSin_safe (val : ℝ) :
    0 ≤ getFlameSinTableIndex val ∧
    getFlameSinTableIndex val < (FLAME_SIN_TABLE_SIZE : ℤ) ∧
    -1 ≤ getFlameSin val ∧ getFlameSin val ≤ 1 := by
  obtain ⟨hlo, hhi⟩ := getFlameSinIdx_bounds val
  have hann : 0 ≤ getFlameSinIdx val + (FLAME_SIN_TABLE_SIZE : ℤ) := by linarith
  have hNpos : (0 : ℤ) < (FLAME_SIN_TABLE_SIZE : ℤ) := by
    norm_num [FLAME_SIN_TABLE_SIZE]
  have htmod : getFlameSinTableIndex val =
      (getFlameSinIdx val + (FLAME_SIN_TABLE_SIZE : ℤ)) % (FLAME_SIN_TABLE_SIZE : ℤ) := by
    rw [getFlameSinTableIndex, Int.tmod_eq_emod hann (le_of_lt hNpos)]
  refine ⟨?_, ?_, ?_, ?_⟩
  · rw [htmod]
    exact Int.emod_nonneg _ (ne_of_gt hNpos)
  · rw [htmod]
    exact Int.emod_lt_of_pos _ hNpos
  · exact Real.neg_one_le_sin _
  · exact Real.sin_le_one _

/-- One entry of the lazily built `_randomCache` (lines 692-701): the
per-particle polar offset, axial length, length fraction and flicker seed. -/
structure FlameRandom where
  angle : ℝ
  radius : ℝ
  len : ℝ
  tt : ℝ
  flickerSeed : ℝ

/-- `flicker = 1 + getFlameSin(t * 18 + i) * 0.18 * flickerSeed` (lines
706-707). -/
noncomputable def flameFlicker (t : ℝ) (i : ℕ) (c : FlameRandom) : ℝ :=
  1 + getFlameSin (t * 18 + (i : ℝ)) * (18 / 100) * c.flickerSeed

/-- A particle's local position (lines 708-712):
`(cos(angle) * radius, sin(angle) * radius, tt * len * flicker)`. -/
noncomputable def flameLocal (t : ℝ) (i : ℕ) (c : FlameRandom) : Vec3R :=
  ⟨Real.cos c.angle * c.radius, Real.sin c.angle * c.radius,
   c.tt * c.len * flameFlicker t i c⟩

/-- The tail anchor `tmpVec3` (lines 687-691): ship world origin plus the
normalized ship-forward direction times `config.flame.tailOffset = -75`. -/
noncomputable def flameTailAnchor (q : QuatR) (shipPos : Vec3R) : Vec3R :=
  shipPos.add ((((Vec3R.mk 0 0 (-1)).applyQuaternion q).normalize).multiplyScalar
    ((config.flame.tailOffset : ℚ) : ℝ))

/-- The world position written for particle `i` (lines 708-717): the local
position rotated by the ship quaternion, then translated to the tail
anchor. -/
noncomputable def flameWorldPos (q : QuatR) (shipPos : Vec3R) (t : ℝ) (i : ℕ)
    (c : FlameRandom) : Vec3R :=
  ((flameLocal t i c).applyQuaternion q).add (flameTailAnchor q shipPos)

/-- The shared position buffer after the per-frame loop (lines 703-718):
particle `i` writes `positions[i*3]`, `positions[i*3+1]`,
`positions[i*3+2]`. -/
noncomputable def flamePositionsBuffer (q : QuatR) (shipPos : Vec3R) (t : ℝ)
    (cache : ℕ → FlameRandom) : ℕ → List ℝ
  | 0 => []
  | n + 1 => flamePositionsBuffer q shipPos t cache n ++
      [(flameWorldPos q shipPos t n (cache n)).x,
       (flameWorldPos q shipPos t n (cache n)).y,
       (flameWorldPos q shipPos t n (cache n)).z]

/-- Component selector for stating which of the three consecutive buffer
entries a particle writes. -/
def vcompR : ℕ → Vec3R → ℝ
  | 0, v => v.x
  | 1, v => v.y
  | _, v => v.z

theorem flamePositionsBuffer_length (q : QuatR) (shipPos : Vec3R) (t : ℝ)
    (cache : ℕ → FlameRandom) (n : ℕ) :
    (flamePositionsBuffer q shipPos t cache n).length = 3 * n := by
  induction n with
  | zero => rfl
  | succ m ih =>
      rw [flamePositionsBuffer, List.length_append, ih]
      simp
      ring

theorem flamePositionsBuffer_getD (q : QuatR) (shipPos : Vec3R) (t : ℝ)
    (cache : ℕ → FlameRandom) (j : ℕ) (hj : j < 3) :
    ∀ n i, i < n →
      (flamePositionsBuffer q shipPos t cache n).getD (3 * i + j) 0 =
        vcompR j (flameWorldPos q shipPos t i (cache i)) := by
  intro n
  induction n with
  | zero => intro i hi; exact absurd hi (Nat.not_lt_zero i)
  | succ m ih =>
      intro i hi
      rcases Nat.lt_succ_iff_lt_or_eq.mp hi with h | h
      · rw [flamePositionsBuffer,
          List.getD_append _ _ _ _ (by rw [flamePositionsBuffer_length]; omega)]
        exact ih i h
      · subst h
        rw [flamePositionsBuffer,
          List.getD_append_right _ _ _ _ (by rw [flamePositionsBuffer_length]; omega),
          flamePositionsBuffer_length]
        have hsub : 3 * i + j - 3 * i = j := by omega
        rw [hsub]
        interval_cases j <;> rfl

/-- C8: after the per-frame flame update, entries `3i`, `3i+1`, `3i+2` of
the shared position buffer hold exactly the components of the particle's
local position `(cos(angle) * radius, sin(angle) * radius,
tt * len * flicker)` with
`flicker = 1 + tableLookup(t * 18 + i) * 0.18 * flickerSeed` (the
1024-entry sine-table lookup), rotated by the ship quaternion and
translated to the tail anchor (ship origin plus ship-forward times
`tailOffset`); and the buffer holds `3 * count` numbers. -/
theorem flame_buffer_spec (q : QuatR) (shipPos : Vec3R) (t : ℝ)
    (cache : ℕ → FlameRandom) (count i : ℕ) (hi : i < count) :
    (flamePositionsBuffer q shipPos t cache count).length = 3 * count ∧
    (flamePositionsBuffer q shipPos t cache count).getD (3 * i) 0 =
      (((flameLocal t i (cache i)).applyQuaternion q).add
        (flameTailAnchor q shipPos)).x ∧
    (flamePositionsBuffer q shipPos t cache count).getD (3 * i + 1) 0 =
      (((flameLocal t i (cache i)).applyQuaternion q).add
        (flameTailAnchor q shipPos)).y ∧
    (flamePositionsBuffer q shipPos t cache count).getD (3 * i + 2) 0 =
      (((flameLocal t i (cache i)).applyQuaternion q).add
        (flameTailAnchor q shipPos)).z ∧
    flameLocal t i (cache i) =
      ⟨Real.cos (cache i).angle * (cache i).radius,
       Real.sin (cache i).angle * (cache i).radius,
       (cache i).tt * (cache i).len *
         (1 + getFlameSin (t * 18 + (i : ℝ)) * (18 / 100) * (cache i).flickerSeed)⟩ := by
  have h0 := flamePositionsBuffer_getD q shipPos t cache 0 (by norm_num) count i hi
  have h1 := flamePositionsBuffer_getD q shipPos t cache 1 (by norm_num) count i hi
  have h2 := flamePositionsBuffer_getD q shipPos t cache 2 (by norm_num) count i hi
  rw [Nat.add_zero] at h0
  exact ⟨flamePositionsBuffer_length q shipPos t cache count, h0, h1, h2, rfl⟩

/-- Witness for C8: one particle (`count = 1`, `i = 0`) with a concrete
basis, the identity quaternion and the ship at the origin. -/
theorem flame_buffer_spec_witness :
    (flamePositionsBuffer ⟨0, 0, 0, 1⟩ ⟨0, 0, 0⟩ 0 (fun _ => ⟨0, 1, 1, 1, 1⟩) 1).length =
      3 * 1 ∧
    (flamePositionsBuffer ⟨0, 0, 0, 1⟩ ⟨0, 0, 0⟩ 0 (fun _ => ⟨0, 1, 1, 1, 1⟩) 1).getD
        (3 * 0) 0 =
      (((flameLocal 0 0 ((fun _ : ℕ => (⟨0, 1, 1, 1, 1⟩ : FlameRandom)) 0)).applyQuaternion
          ⟨0, 0, 0, 1⟩).add (flameTailAnchor ⟨0, 0, 0, 1⟩ ⟨0, 0, 0⟩)).x ∧
    (flamePositionsBuffer ⟨0, 0, 0, 1⟩ ⟨0, 0, 0⟩ 0 (fun _ => ⟨0, 1, 1, 1, 1⟩) 1).getD
        (3 * 0 + 1) 0 =
      (((flameLocal 0 0 ((fun _ : ℕ => (⟨0, 1, 1, 1, 1⟩ : FlameRandom)) 0)).applyQuaternion
          ⟨0, 0, 0, 1⟩).add (flameTailAnchor ⟨0, 0, 0, 1⟩ ⟨0, 0, 0⟩)).y ∧
    (flamePositionsBuffer ⟨0, 0, 0, 1⟩ ⟨0, 0, 0⟩ 0 (fun _ => ⟨0, 1, 1, 1, 1⟩) 1).getD
        (3 * 0 + 2) 0 =
      (((flameLocal 0 0 ((fun _ : ℕ => (⟨0, 1, 1, 1, 1⟩ : FlameRandom)) 0)).applyQuaternion
          ⟨0, 0, 0, 1⟩).add (flameTailAnchor ⟨0, 0, 0, 1⟩ ⟨0, 0, 0⟩)).z ∧
    flameLocal 0 0 ((fun _ : ℕ => (⟨0, 1, 1, 1, 1⟩ : FlameRandom)) 0) =
      ⟨Real.cos (FlameRandom.mk 0 1 1 1 1).angle * (FlameRandom.mk 0 1 1 1 1).radius,
       Real.sin (FlameRandom.mk 0 1 1 1 1).angle * (FlameRandom.mk 0 1 1 1 1).radius,
       (FlameRandom.mk 0 1 1 1 1).tt * (FlameRandom.mk 0 1 1 1 1).len *
         (1 + getFlameSin (0 * 18 + ((0 : ℕ) : ℝ)) * (18 / 100) *
           (FlameRandom.mk 0 1 1 1 1).flickerSeed)⟩ :=
  flame_buffer_spec ⟨0, 0, 0, 1⟩ ⟨0, 0, 0⟩ 0 (fun _ => ⟨0, 1, 1, 1, 1⟩) 1 0
    (by norm_num)
